import Mathlib

/-!
Shallow embedding of `src/lambda/lambda_function.py`: an AWS Lambda handler
that fetches Terraform files and the latest failing GitHub Actions log for a
branch, asks a text-generation backend for a remediation, parses the model's
JSON answer, and publishes the edits as a new branch plus pull request.

Modelling conventions:
* External effects (the `requests` HTTP library, `zipfile`, `json.loads`,
  the Bedrock client) are modelled by oracles passed as explicit arguments.
* Every outbound HTTP request is recorded in a trace, together with the
  header/timeout arguments used at that call site (`RequestMeta`).
* Raised Python exceptions are modelled with `Except`; an uncaught exception
  is an `Except.error` escaping the embedded function.
* Machine-level details that no claim touches (URL formatting of the
  repository path, the exact byte content of HTTP bodies other than the
  fields the code reads, Python `repr` string escaping) are absorbed into
  the oracles or approximated, with a note at the definition.
-/

namespace Troubleshoot

/-! ### Python string primitives -/

/-- The whitespace characters stripped by Python's `str.strip()`. -/
def isPySpace (c : Char) : Bool :=
  c = ' ' || c = '\t' || c = '\n' || c = '\r' || c = '\x0b' || c = '\x0c'

def pyStripList (l : List Char) : List Char :=
  ((l.dropWhile isPySpace).reverse.dropWhile isPySpace).reverse

/-- Python `s.strip()` (no argument): drop leading and trailing whitespace. -/
def pyStrip (s : String) : String :=
  String.mk (pyStripList s.toList)

/-- Python `s.lstrip(chars)`: drop leading characters that belong to the set
`chars` (the argument is a character set, not a prefix). -/
def pyLstripChars (cs : List Char) (s : String) : String :=
  String.mk (s.toList.dropWhile (fun c => cs.contains c))

/-- Python `s.lower()` (ASCII part; the failure marker is plain ASCII). -/
def pyLower (s : String) : String :=
  String.mk (s.toList.map Char.toLower)

def isPrefixL : List Char → List Char → Bool
  | [], _ => true
  | _ :: _, [] => false
  | a :: as, b :: bs => a = b && isPrefixL as bs

def containsSubL (needle : List Char) : List Char → Bool
  | [] => needle.isEmpty
  | c :: rest => isPrefixL needle (c :: rest) || containsSubL needle rest

/-- Python's `needle in hay` substring test. -/
def containsSub (needle hay : String) : Bool :=
  containsSubL needle.toList hay.toList

/-- Python `s.endswith(suffix)`. -/
def pyEndswith (s suffix : String) : Bool :=
  isPrefixL suffix.toList.reverse s.toList.reverse

/-- Line-break characters recognised by Python `str.splitlines()`. -/
def isLineBreak (c : Char) : Bool :=
  c = '\n' || c = '\r' || c = '\x0b' || c = '\x0c' ||
  c = '\x1c' || c = '\x1d' || c = '\x1e' || c = '\x85' ||
  c = Char.ofNat 8232 || c = Char.ofNat 8233

def splitlinesL (cur : List Char) : List Char → List (List Char)
  | [] => if cur.isEmpty then [] else [cur.reverse]
  | '\r' :: '\n' :: rest => cur.reverse :: splitlinesL [] rest
  | c :: rest =>
    if isLineBreak c then cur.reverse :: splitlinesL [] rest
    else splitlinesL (c :: cur) rest

/-- Python `s.splitlines()`: `\r\n` counts as one break and a trailing break
produces no empty final line. -/
def pySplitlines (s : String) : List String :=
  (splitlinesL [] s.toList).map String.mk

/-! ### Base64 (Python `base64.b64encode` over the UTF-8 bytes) -/

/-- UTF-8 encoding of one code point, as plain naturals. -/
def utf8Bytes (c : Nat) : List Nat :=
  if c < 128 then [c]
  else if c < 2048 then [192 + c / 64, 128 + c % 64]
  else if c < 65536 then [224 + c / 4096, 128 + c / 64 % 64, 128 + c % 64]
  else [240 + c / 262144, 128 + c / 4096 % 64, 128 + c / 64 % 64, 128 + c % 64]

def strBytes (s : String) : List Nat :=
  s.toList.foldr (fun c acc => utf8Bytes c.toNat ++ acc) []

def b64Alphabet : List Char :=
  "ABCDEFGHIJKLMNOPQRSTUVWXYZabcdefghijklmnopqrstuvwxyz0123456789+/".toList

def b64Char (n : Nat) : Char :=
  b64Alphabet.getD n '='

def b64encodeBytes : List Nat → List Char
  | [] => []
  | [a] => [b64Char (a / 4), b64Char (a % 4 * 16), '=', '=']
  | [a, b] => [b64Char (a / 4), b64Char (a % 4 * 16 + b / 16), b64Char (b % 16 * 4), '=']
  | a :: b :: c :: rest =>
      b64Char (a / 4) :: b64Char (a % 4 * 16 + b / 16) ::
        b64Char (b % 16 * 4 + c / 64) :: b64Char (c % 64) :: b64encodeBytes rest

/-- `base64.b64encode(s.encode()).decode()` from line 225 of the source. -/
def b64encode (s : String) : String :=
  String.mk (b64encodeBytes (strBytes s))

/-! ### Python/JSON values and exceptions -/

/-- Values produced by `json.loads` / stored in the Lambda `event` dict.
JSON objects are modelled as association lists in insertion order, assumed
duplicate-free (as `json.loads` collapses duplicate keys). -/
inductive PyVal where
  | str (s : String)
  | num (n : Int)
  | bool (b : Bool)
  | null
  | list (xs : List PyVal)
  | dict (entries : List (String × PyVal))

/-- Python `d.get(k)` / `d[k]` lookup on an object modelled as an
association list (last binding wins, as in a Python dict). -/
def pyGet (entries : List (String × PyVal)) (k : String) : Option PyVal :=
  ((entries.filter (fun e => e.1 == k)).getLast?).map (fun e => e.2)

/-- Python truthiness of a value. -/
def pyTruthy : PyVal → Bool
  | .str s => !s.isEmpty
  | .num n => n != 0
  | .bool b => b
  | .null => false
  | .list xs => !xs.isEmpty
  | .dict es => !es.isEmpty

mutual

/-- Python `str(v)` (`asRepr = false`) and `repr(v)` (`asRepr = true`) of a
JSON value, used when a value is interpolated into an f-string. The escaping
`repr` applies inside strings is not reproduced (no claim depends on it). -/
def pyRender (asRepr : Bool) : PyVal → String
  | .str s => if asRepr then "\x27" ++ s ++ "\x27" else s
  | .num n => toString n
  | .bool b => if b then "True" else "False"
  | .null => "None"
  | .list xs => "[" ++ String.intercalate ", " (pyRenderL xs) ++ "]"
  | .dict es => "\x7b" ++ String.intercalate ", " (pyRenderD es) ++ "\x7d"

def pyRenderL : List PyVal → List String
  | [] => []
  | v :: vs => pyRender true v :: pyRenderL vs

def pyRenderD : List (String × PyVal) → List String
  | [] => []
  | e :: es => ("\x27" ++ e.1 ++ "\x27: " ++ pyRender true e.2) :: pyRenderD es

end

/-- Rendering of a possibly-unassigned value in an f-string
(`.get` results may be `None`, which prints as `"None"`). -/
def fstring : Option PyVal → String
  | none => "None"
  | some v => pyRender false v

/-- Python exceptions raised by the embedded code. -/
inductive PyErr where
  | keyError (k : String)
  | attributeError
  | valueError (msg : String)
  | exception (msg : String)
  | httpError
  | transportError
  | unboundLocalError (name : String)
deriving Repr, DecidableEq

/-- `str(e)` of an exception, as used by the handler's error messages.
For exception kinds whose Python message depends on runtime objects
(`AttributeError`, HTTP errors) only the class name is kept. -/
def pyErrMsg : PyErr → String
  | .keyError k => "\x27" ++ k ++ "\x27"
  | .attributeError => "AttributeError"
  | .valueError m => m
  | .exception m => m
  | .httpError => "HTTPError"
  | .transportError => "ConnectionError"
  | .unboundLocalError n => n

/-! ### Failure Extractor (lines 73-78): `extract_error_with_context` -/

/-- Lines 73-78: collect every line whose lowercase form contains `"error"`,
appending `line.strip()` for each match, and join with newlines. -/
def extract_error_with_context (log_content : String) : String :=
  let error_logs := (pySplitlines log_content).foldl
    (fun acc line => if containsSub "error" (pyLower line) then acc ++ [pyStrip line] else acc) []
  String.intercalate "\n" error_logs

/-! ### Outbound HTTP requests and their traces -/

/-- One entry of the `tree` array sent to the tree-creation endpoint
(line 233: path, mode "100644", type "blob", and the blob sha). -/
structure TreeEntry where
  path : String
  mode : String
  type : String
  sha : String
deriving Repr, DecidableEq

/-- The shape of each outbound source-host call issued by the pipeline.
The repository path segment of the URL is the same for all calls of one
invocation and is left implicit (the oracles are per-repository). -/
inductive Call where
  | getRef (branch : String)
  | createRef (ref : String) (sha : String)
  | createBlob (content : String)
  | getTree (sha : String)
  | createTree (base_tree : String) (tree : List TreeEntry)
  | createCommit (message : String) (tree : String) (parents : List String)
  | updateRef (branch : String) (sha : String)
  | createPull (title : String) (body : String) (head : String) (base : String)
  | listDir (ref : String)
  | getRaw (url : String)
  | listRuns (branch : String)
  | getLogs (url : String)
deriving Repr, DecidableEq

/-- The header/timeout arguments a call site passes to `requests`:
whether an `Authorization: Bearer ..` header is present, and the value of
the `timeout=` argument (`none` when the code passes no timeout). -/
structure RequestMeta where
  bearerAuth : Bool
  timeout : Option Nat
deriving Repr, DecidableEq

/-- An issued request: the call plus the metadata of its call site. -/
structure Request where
  call : Call
  meta : RequestMeta
deriving Repr, DecidableEq

/-- Lines 187-258 and 267-283: `headers` with the bearer token, no
`timeout=` argument. -/
def bearerNoTimeout : RequestMeta := ⟨true, none⟩

/-- Lines 85-96: empty headers dict and timeout 60. -/
def noAuthTimeout60 : RequestMeta := ⟨false, some 60⟩

/-- Lines 23-43: bearer headers and `timeout=60`. -/
def bearerTimeout60 : RequestMeta := ⟨true, some 60⟩

/-- Outcome of one `requests` call, as far as the code inspects it:
either the request raises (network/timeout failure), or a response arrives
with a status code and the one body field the code reads (the relevant
`sha`-like field; `none` when the body lacks it, which makes the
subscription raise a `KeyError`). -/
inductive Outcome where
  | transport
  | response (status : Nat) (sha : Option String)
deriving Repr, DecidableEq

def Outcome.sha? : Outcome → Option String
  | .transport => none
  | .response _ s => s

def Outcome.status? : Outcome → Option Nat
  | .transport => none
  | .response st _ => some st

/-! ### Source Fetcher (lines 80-100): `fetch_files_from_github` -/

/-- One entry of the directory listing returned by the contents API. -/
structure DirEntry where
  type : String
  name : String
  download_url : String
deriving Repr, DecidableEq

inductive ListingOutcome where
  | transport
  | httpStatus (status : Nat) (entries : List DirEntry)

inductive ContentOutcome where
  | transport
  | httpStatus (status : Nat) (text : String)

/-- Remote behaviour of the listing call and of each raw-content call
(keyed by `download_url`). -/
structure FilesOracle where
  listing : ListingOutcome
  fileContent : String → ContentOutcome

/-- `response.raise_for_status()` raises exactly for statuses 400-599. -/
def raiseForStatus (st : Nat) : Bool :=
  400 ≤ st && st < 600

/-- Line 91: the recognised Terraform extensions. -/
def terraform_extensions : List String := [".tf", ".tfvars"]

/-- Line 94: `item['type'] == 'file' and any(item['name'].endswith(ext) ...)`. -/
def matchesEntry (item : DirEntry) : Bool :=
  item.type == "file" && terraform_extensions.any (fun ext => pyEndswith item.name ext)

/-- The per-entry loop of lines 93-98: fetch matching entries in listing
order and concatenate `File: <name>\n<content>\n\n` blocks. -/
def fetchLoop (o : FilesOracle) : List DirEntry → Except PyErr String × List Request
  | [] => (.ok "", [])
  | item :: rest =>
    if matchesEntry item then
      let req : Request := ⟨.getRaw item.download_url, noAuthTimeout60⟩
      match o.fileContent item.download_url with
      | .transport => (.error .transportError, [req])
      | .httpStatus st text =>
        if raiseForStatus st then (.error .httpError, [req])
        else
          let (res, tr) := fetchLoop o rest
          (res.map (fun tail => "File: " ++ item.name ++ "\n" ++ text ++ "\n\n" ++ tail),
           req :: tr)
    else fetchLoop o rest

/-- Lines 80-100: list the directory at the branch, then fetch the content
of every regular file with a recognised extension. -/
def fetch_files_from_github (o : FilesOracle) (branch_name : String) :
    Except PyErr String × List Request :=
  let req : Request := ⟨.listDir branch_name, noAuthTimeout60⟩
  match o.listing with
  | .transport => (.error .transportError, [req])
  | .httpStatus st entries =>
    if raiseForStatus st then (.error .httpError, [req])
    else
      let (res, tr) := fetchLoop o entries
      (res, req :: tr)

/-! ### Discovery-mode extraction (lines 18-71): `fetch_github_actions_details` -/

/-- The two fields of a workflow-run record the code reads (via `.get`, so a
missing field is `none`, not an error). A non-string `logs_url` is not
modelled; Python truthiness on the string is (empty = falsy). -/
structure Run where
  conclusion : Option String
  logs_url : Option String
deriving Repr, DecidableEq

inductive RunsOutcome where
  | transport
  | httpStatus (status : Nat) (workflow_runs : List Run)

inductive LogsOutcome where
  | transport
  | httpStatus (status : Nat) (zipEntries : List (String × String))

/-- Remote behaviour of the run-discovery call and the log-archive call
(keyed by `logs_url`); the downloaded archive is modelled already unpacked
as a name-to-text map. -/
structure ActionsOracle where
  runs : RunsOutcome
  logs : String → LogsOutcome

/-- Lines 18-71: query the latest workflow run for the branch; if it
concluded in failure and carries a logs locator, download the archive,
open `0_terraform.txt` and extract the error lines; otherwise report the
sentinel strings of lines 36, 62 and 64. -/
def fetch_github_actions_details (o : ActionsOracle) (branch_name : String) :
    Except PyErr String × List Request :=
  let req : Request := ⟨.listRuns branch_name, bearerTimeout60⟩
  match o.runs with
  | .transport => (.error .transportError, [req])
  | .httpStatus st workflow_runs =>
    if raiseForStatus st then (.error .httpError, [req])
    else
      match workflow_runs with
      | [] => (.ok "No workflow runs found.", [req])
      | latest_run :: _ =>
        if latest_run.conclusion = some "failure" then
          match latest_run.logs_url with
          | some logs_url =>
            if logs_url.isEmpty then (.ok "Latest workflow run did not fail.", [req])
            else
              let reqL : Request := ⟨.getLogs logs_url, bearerTimeout60⟩
              match o.logs logs_url with
              | .transport => (.error .transportError, [req, reqL])
              | .httpStatus st2 zipEntries =>
                if raiseForStatus st2 then (.error .httpError, [req, reqL])
                else
                  match zipEntries.find? (fun e => e.1 == "0_terraform.txt") with
                  | some e => (.ok (extract_error_with_context e.2), [req, reqL])
                  | none =>
                    (.ok "Terraform log file not found in workflow artifacts.", [req, reqL])
          | none => (.ok "Latest workflow run did not fail.", [req])
        else (.ok "Latest workflow run did not fail.", [req])

/-! ### Response Parser (lines 170-182 of `create_new_branch`) -/

/-- Line 173's string preprocessing:
`fixed_code.lstrip("```json").split("```")[0].strip()`.
`lstrip` takes a character *set*, here the backtick and the letters
`j`, `s`, `o`, `n`; `split` cuts at the first fence and `[0]` keeps the
part before it. -/
def fenceChars : List Char := ['\x60', 'j', 's', 'o', 'n']

def strip_fenced (s : String) : String :=
  pyStrip (((pyLstripChars fenceChars s).splitOn "\x60\x60\x60").headD "")

/-- The fields of `create_new_branch`'s parsed response, before any of them
is interpolated into a URL or request body. `files` already holds the
stripped per-file contents built by the loop of lines 181-182. -/
structure RawParsed where
  branch_name : Option PyVal
  commit_message : Option PyVal
  pr_title : Option PyVal
  pr_body : Option PyVal
  files : List (String × String)

/-- The loop of lines 181-182: `files[filename] = content.strip()`.
A non-string content has no `.strip` attribute and raises. -/
def stripItems : List (String × PyVal) → Except PyErr (List (String × String))
  | [] => .ok []
  | (k, .str s) :: rest => (stripItems rest).map (fun r => (k, pyStrip s) :: r)
  | (_, _) :: _ => .error .attributeError

/-- Lines 176-182 applied to the deserialized document: read the metadata
fields with `.get`, then iterate `fixed_code_json.get("files").items()`.
When `files` is absent, `.items()` is called on `None` and raises; when the
document is not an object, `.get` itself raises. No emptiness check is
performed on `files`. -/
def parse_fixed_code (j : PyVal) : Except PyErr RawParsed :=
  match j with
  | .dict entries =>
    match pyGet entries "files" with
    | some (.dict fentries) =>
      (stripItems fentries).map (fun fs =>
        { branch_name := pyGet entries "branch_name"
          commit_message := pyGet entries "commit_message"
          pr_title := pyGet entries "pr_title"
          pr_body := pyGet entries "pr_body"
          files := fs })
    | some _ => .error .attributeError
    | none => .error .attributeError
  | _ => .error .attributeError

/-! ### Change Publisher (lines 184-290) -/

/-- The parsed payload as it is used by the publish steps: each metadata
field rendered the way an f-string renders it (line 211 etc.). The source
inserts `commit_message`/`pr_title`/`pr_body` into JSON bodies unrendered;
for the string payloads every claim exercises, rendering is the identity. -/
structure Payload where
  branch_name : String
  commit_message : String
  pr_title : String
  pr_body : String
  files : List (String × String)
deriving Repr, DecidableEq

def toPayload (r : RawParsed) : Payload :=
  ⟨fstring r.branch_name, fstring r.commit_message, fstring r.pr_title,
   fstring r.pr_body, r.files⟩

/-- Remote behaviour of the git-object endpoints, one field per endpoint,
keyed by the request arguments. -/
structure GitHubOracle where
  refMain : Outcome
  refBranch : String → Outcome
  createRef : String → String → Outcome
  createBlob : String → Outcome
  getTree : String → Outcome
  createTree : String → List TreeEntry → Outcome
  createCommit : String → String → List String → Outcome
  updateRef : String → String → Outcome
  createPull : String → String → String → String → Outcome

/-- Lines 221-233: for each file create a blob from the base64-encoded
stripped content and record path, mode "100644", type "blob", sha. The status is
not inspected; `.json()["sha"]` raises when the body lacks `"sha"`. -/
def blobLoop (o : GitHubOracle) : List (String × String) →
    Except PyErr (List TreeEntry) × List Request
  | [] => (.ok [], [])
  | (file_name, file_content) :: rest =>
    let content := b64encode file_content
    let req : Request := ⟨.createBlob content, bearerNoTimeout⟩
    match o.createBlob content with
    | .transport => (.error .transportError, [req])
    | .response _ none => (.error (.keyError "sha"), [req])
    | .response _ (some blob_sha) =>
      let (res, tr) := blobLoop o rest
      (res.map (fun entries => ⟨file_name, "100644", "blob", blob_sha⟩ :: entries),
       req :: tr)

/-- Lines 265-290: open the pull request; only a 201 counts as success,
anything else raises. The outcome's payload field stands for `html_url`. -/
def create_pull_request (o : GitHubOracle) (new_branch_name base_branch title body : String) :
    Except PyErr String × List Request :=
  let req : Request := ⟨.createPull title body new_branch_name base_branch, bearerNoTimeout⟩
  match o.createPull title body new_branch_name base_branch with
  | .transport => (.error .transportError, [req])
  | .response st u =>
    if st = 201 then (.ok (u.getD ""), [req])
    else (.error (.exception "Failed to create pull request."), [req])

/-- Lines 235-260: tree, commit, ref update and pull request, given the
base commit sha and the blob entries. Statuses of the tree and commit calls
are not inspected (only the `"sha"` field); the ref-update response on
lines 254-258 is not inspected at all, so after it only a transport error
can abort. -/
def publishRest (o : GitHubOracle) (p : Payload) (base_commit : String)
    (blobs : List TreeEntry) : Except PyErr String × List Request :=
  let reqT : Request := ⟨.getTree base_commit, bearerNoTimeout⟩
  match o.getTree base_commit with
  | .transport => (.error .transportError, [reqT])
  | .response _ none => (.error (.keyError "sha"), [reqT])
  | .response _ (some base_tree_sha) =>
    let reqCT : Request := ⟨.createTree base_tree_sha blobs, bearerNoTimeout⟩
    match o.createTree base_tree_sha blobs with
    | .transport => (.error .transportError, [reqT, reqCT])
    | .response _ none => (.error (.keyError "sha"), [reqT, reqCT])
    | .response _ (some new_tree_sha) =>
      let reqC : Request :=
        ⟨.createCommit p.commit_message new_tree_sha [base_commit], bearerNoTimeout⟩
      match o.createCommit p.commit_message new_tree_sha [base_commit] with
      | .transport => (.error .transportError, [reqT, reqCT, reqC])
      | .response _ none => (.error (.keyError "sha"), [reqT, reqCT, reqC])
      | .response _ (some new_commit_sha) =>
        let reqU : Request := ⟨.updateRef p.branch_name new_commit_sha, bearerNoTimeout⟩
        match o.updateRef p.branch_name new_commit_sha with
        | .transport => (.error .transportError, [reqT, reqCT, reqC, reqU])
        | .response _ _ =>
          let (pres, ptr) :=
            create_pull_request o p.branch_name "main" p.pr_title p.pr_body
          (pres.map (fun _ => p.branch_name), [reqT, reqCT, reqC, reqU] ++ ptr)

/-- Lines 184-262 after the parse: resolve main's tip, check that the new
branch does not exist (status 200 means it does: `ValueError`), create the
branch ref (only 201 is success), then blobs, tree, commit, ref update and
pull request. Returns the new branch name on success. -/
def create_new_branch_pub (o : GitHubOracle) (p : Payload) :
    Except PyErr String × List Request :=
  let reqMain : Request := ⟨.getRef "main", bearerNoTimeout⟩
  match o.refMain with
  | .transport => (.error .transportError, [reqMain])
  | .response _ none => (.error (.keyError "object"), [reqMain])
  | .response _ (some base_commit) =>
    let reqBr : Request := ⟨.getRef p.branch_name, bearerNoTimeout⟩
    match o.refBranch p.branch_name with
    | .transport => (.error .transportError, [reqMain, reqBr])
    | .response status _ =>
      if status = 200 then
        (.error (.valueError ("Branch " ++ p.branch_name ++ " already exists.")),
         [reqMain, reqBr])
      else
        let reqCr : Request :=
          ⟨.createRef ("refs/heads/" ++ p.branch_name) base_commit, bearerNoTimeout⟩
        match o.createRef ("refs/heads/" ++ p.branch_name) base_commit with
        | .transport => (.error .transportError, [reqMain, reqBr, reqCr])
        | .response st2 _ =>
          if st2 = 201 then
            match blobLoop o p.files with
            | (.error e, btr) => (.error e, [reqMain, reqBr, reqCr] ++ btr)
            | (.ok blobs, btr) =>
              let (rres, rtr) := publishRest o p base_commit blobs
              (rres, [reqMain, reqBr, reqCr] ++ btr ++ rtr)
          else
            (.error (.exception ("Failed to create branch " ++ p.branch_name ++ ".")),
             [reqMain, reqBr, reqCr])

/-- A call that mutates remote state (as opposed to a read). -/
def isMutation : Call → Bool
  | .createRef _ _ => true
  | .createBlob _ => true
  | .createTree _ _ => true
  | .createCommit _ _ _ => true
  | .updateRef _ _ => true
  | .createPull _ _ _ _ => true
  | _ => false

/-- The `json` library and the per-repository git oracle available to
`create_new_branch`. -/
structure Env where
  loads : String → Except PyErr PyVal
  gh : GitHubOracle

/-- Lines 170-262 end to end: fence-strip the model output, deserialize it,
validate/strip the `files` mapping, then publish. -/
def create_new_branch (env : Env) (fixed_code : String) :
    Except PyErr String × List Request :=
  match env.loads (strip_fenced fixed_code) with
  | .error e => (.error e, [])
  | .ok j =>
    match parse_fixed_code j with
    | .error e => (.error e, [])
    | .ok raw => create_new_branch_pub env.gh (toPayload raw)

/-! ### Prompts and the text-generation backend (lines 102-168, 313-343) -/

/-- Lines 102-128: the Bedrock invocation. The request-body assembly and the
response unpacking are absorbed into the backend oracle, a function from the
prompt to the output text or a raised exception. -/
def invoke_bedrock_model (bedrock : String → Except PyErr String) (prompt : String) :
    Except PyErr String :=
  bedrock prompt

/-- The f-string of lines 133-162 (the edit-synthesis prompt); the
triple-quoted indentation is reproduced approximately. -/
def remediate_prompt (code steps_to_remediate : String) : String :=
  "\n        <task>\n        You are an expert in fixing Terraform code issues. Below are the steps to fix the issue and the contents of a Git repository.\n\n        <steps_to_remediate>\n        "
    ++ steps_to_remediate ++
  "\n        </steps_to_remediate>\n\n        <repo_files_content>\n        "
    ++ code ++
  "\n        </repo_files_content>\n\n        <instructions>\n        Fix the identified issues in the code and return only the files which are modified in same format.\n        </instructions>\n        <output_format>\n        Return a JSON object with the following fields (no other text or explanations):\n        \x7b\n          \"files\": \x7b\n            \"path/to/modified_file_1.tf\": \"<modified file contents>\",\n            \"path/to/modified_file_2.tf\": \"<modified file contents>\"\n          \x7d,\n          \"commit_message\": \"Short and clear explanation of the fix\",\n          \"branch_name\": \"descriptive_branch_name\",\n          \"pr_title\": \"title_for_pull_request\",\n          \"pr_body\": \"description_for_pull_request\"\n        \x7d\n        </output_format>\n        </task>\n        "

/-- Lines 130-168: build the edit-synthesis prompt and invoke the backend. -/
def remediate_code (bedrock : String → Except PyErr String)
    (code steps_to_remediate : String) : Except PyErr String :=
  invoke_bedrock_model bedrock (remediate_prompt code steps_to_remediate)

/-- Lines 313-316. -/
def specific_use_case : String :=
  "\n        - If the error is with respect to service control policies or resource based policies then inform the user to contact Security team (abc-security@abc.com) as it is a limitation. DO NOT include any other information.\n        - If the error is with respect to S3 bucket creation or VPC resource creation, inform the user to contact Platform team (abc-platform@abc.com) as it is a limitation. DO NOT include any other information.\n        "

/-- The f-string of lines 324-340 (the diagnosis prompt). -/
def troubleshoot_prompt (error_message repo_files_content : String) : String :=
  "\n        <task>\n        You are an expert in troubleshooting Terraform code issues. Below is the full log of GitHub actions, identify the error_message from the logs and use the contents from a Git repository.\n\n        <error_message>\n        "
    ++ error_message ++
  "\n        </error_message>\n\n        <repo_files_content>\n        "
    ++ repo_files_content ++
  "\n        </repo_files_content>\n\n        <instructions>\n        Provide step-by-step instructions on how to resolve the error by looking into error_message and take into account the repo_files_content while suggesting the fix. Ensure that the troubleshooting steps are provided aligning to "
    ++ specific_use_case ++
  ".\n        </instructions>\n        </task>\n        "

/-! ### Invocation entry (lines 292-402): `lambda_handler` -/

/-- The response envelope built on lines 346-362 (and in both handlers). -/
def envelope (actionGroup function : PyVal) (body : String) (messageVersion : PyVal) : PyVal :=
  .dict [("response", .dict
            [("actionGroup", actionGroup),
             ("function", function),
             ("functionResponse", .dict
                [("responseBody", .dict [("TEXT", .dict [("body", .str body)])])])]),
         ("messageVersion", messageVersion)]

/-- The shared shape of the two `except` blocks (lines 370-402): build the
envelope from `actionGroup`, `function` and `event['messageVersion']`.
Referencing a local that was never assigned raises `UnboundLocalError`, and
a missing `messageVersion` key raises `KeyError`; both escape the handler
because an exception inside an `except` block is not caught. -/
def handle_error (event : List (String × PyVal)) (msg : String)
    (ag fn : Option PyVal) : Except PyErr PyVal :=
  match ag with
  | none => .error (.unboundLocalError "actionGroup")
  | some agv =>
    match fn with
    | none => .error (.unboundLocalError "function")
    | some fnv =>
      match pyGet event "messageVersion" with
      | none => .error (.keyError "messageVersion")
      | some mv => .ok (envelope agv fnv msg mv)

/-- All external collaborators of one handler invocation. -/
structure HandlerEnv where
  filesOracle : FilesOracle
  actionsOracle : ActionsOracle
  bedrock : String → Except PyErr String
  loads : String → Except PyErr PyVal
  gh : GitHubOracle

/-- Lines 292-402. The `try` body threads, alongside any raised exception,
the values of the locals `actionGroup` and `function` if they were assigned
before the raise (`none` = unbound), because the `except` blocks read them.
Note the order of the body: the envelope (and hence
`event['messageVersion']`) is built *before* remediation and publishing. -/
def lambda_handler (env : HandlerEnv) (event : List (String × PyVal)) :
    Except PyErr PyVal :=
  let body : Except (PyErr × Option PyVal × Option PyVal) PyVal :=
    match pyGet event "workspace_url" with
    | none => .error (.keyError "workspace_url", none, none)
    | some _workspace_url =>
      match pyGet event "repo_url" with
      | none => .error (.keyError "repo_url", none, none)
      | some repo_url =>
        match pyGet event "branch_name" with
        | none => .error (.keyError "branch_name", none, none)
        | some branch_name =>
          match pyGet event "actionGroup" with
          | none => .error (.keyError "actionGroup", none, none)
          | some actionGroup =>
            match pyGet event "function" with
            | none => .error (.keyError "function", some actionGroup, none)
            | some function =>
              let ag := some actionGroup
              let fn := some function
              let fetched : Except PyErr String :=
                if pyTruthy repo_url then
                  (fetch_files_from_github env.filesOracle (pyRender false branch_name)).1
                else .ok ""
              match fetched with
              | .error e => .error (e, ag, fn)
              | .ok repo_files_content =>
                match (fetch_github_actions_details env.actionsOracle
                         (pyRender false branch_name)).1 with
                | .error e => .error (e, ag, fn)
                | .ok error_message =>
                  if (some error_message).isNone && repo_files_content == "" then
                    .error (.keyError "Neither \x27files_content\x27 nor \x27error_message\x27 were found in the response from Lambda 2", ag, fn)
                  else
                    match invoke_bedrock_model env.bedrock
                            (troubleshoot_prompt error_message repo_files_content) with
                    | .error e => .error (e, ag, fn)
                    | .ok troubleshooting_steps =>
                      match pyGet event "messageVersion" with
                      | none => .error (.keyError "messageVersion", ag, fn)
                      | some mv =>
                        let final_response :=
                          envelope actionGroup function troubleshooting_steps mv
                        match remediate_code env.bedrock repo_files_content
                                troubleshooting_steps with
                        | .error e => .error (e, ag, fn)
                        | .ok fixed_code =>
                          match (create_new_branch ⟨env.loads, env.gh⟩ fixed_code).1 with
                          | .error e => .error (e, ag, fn)
                          | .ok _ => .ok final_response
  match body with
  | .ok v => .ok v
  | .error (e, ag, fn) =>
    let msg :=
      match e with
      | .keyError k => "Missing required information: \x27" ++ k ++ "\x27"
      | e2 => "Error: " ++ pyErrMsg e2
    handle_error event msg ag fn

/-! ### Statement abbreviations -/

/-- The three requests issued before any blob is created: main-tip lookup,
branch-existence check, branch-ref creation. -/
def prefixReqs (p : Payload) (m : String) : List Request :=
  [⟨.getRef "main", bearerNoTimeout⟩, ⟨.getRef p.branch_name, bearerNoTimeout⟩,
   ⟨.createRef ("refs/heads/" ++ p.branch_name) m, bearerNoTimeout⟩]

/-- The blob-creation requests for a file list, in order. -/
def blobReqs (fs : List (String × String)) : List Request :=
  fs.map (fun pc => ⟨.createBlob (b64encode pc.2), bearerNoTimeout⟩)

/-- The tree entries recorded for a file list when the blob call for content
`c` returns sha `bsha c`. -/
def blobEntries (bsha : String → String) (fs : List (String × String)) : List TreeEntry :=
  fs.map (fun pc => ⟨pc.1, "100644", "blob", bsha (b64encode pc.2)⟩)

/-- A well-formed edit-synthesis document with the given string fields. -/
def payloadJson (bn cm pt pb : String) (fentries : List (String × String)) : PyVal :=
  .dict [("branch_name", .str bn), ("commit_message", .str cm),
         ("pr_title", .str pt), ("pr_body", .str pb),
         ("files", .dict (fentries.map (fun kv => (kv.1, PyVal.str kv.2))))]

/-- The per-file contents after line 182's `content.strip()`. -/
def strippedFiles (fentries : List (String × String)) : List (String × String) :=
  fentries.map (fun kv => (kv.1, pyStrip kv.2))

/-- The `File: <name>\n<content>\n\n` concatenation over the matching
entries of a listing, in listing order (`ct` = content by download url). -/
def serializeFiles (ct : String → String) (l : List DirEntry) : String :=
  ((l.filter matchesEntry).map
    (fun e => "File: " ++ e.name ++ "\n" ++ ct e.download_url ++ "\n\n")).foldr (· ++ ·) ""

/-! ### Concrete fixtures for witnesses and counterexamples -/

/-- A git oracle where every call fails at transport level. -/
def ghAllFail : GitHubOracle :=
  ⟨.transport, fun _ => .transport, fun _ _ => .transport, fun _ => .transport,
   fun _ => .transport, fun _ _ => .transport, fun _ _ _ => .transport,
   fun _ _ => .transport, fun _ _ _ _ => .transport⟩

def filesNone : FilesOracle := ⟨.transport, fun _ => .transport⟩

def actionsNone : ActionsOracle := ⟨.transport, fun _ => .transport⟩

/-- A handler environment whose collaborators are never successfully
reached (sufficient for inputs that fail before any outbound call). -/
def env4 : HandlerEnv :=
  { filesOracle := filesNone, actionsOracle := actionsNone,
    bedrock := fun _ => .error (.exception "backend unavailable"),
    loads := fun _ => .error (.valueError "not json"), gh := ghAllFail }

/-- Oracle for the branch-conflict scenario: main resolves, the branch
lookup answers 200 (exists). -/
def o2w : GitHubOracle :=
  { ghAllFail with
    refMain := .response 200 (some "M"),
    refBranch := fun _ => .response 200 none }

def p2w : Payload := ⟨"dup", "msg", "title", "body", []⟩

/-- Oracle where every step succeeds except the ref update, which answers
a non-success 422 — and the pull-request call still answers 201. -/
def o3c : GitHubOracle :=
  { refMain := .response 200 (some "M")
    refBranch := fun _ => .response 404 none
    createRef := fun _ _ => .response 201 none
    createBlob := fun _ => .response 201 (some "B")
    getTree := fun _ => .response 200 (some "T")
    createTree := fun _ _ => .response 201 (some "N")
    createCommit := fun _ _ _ => .response 201 (some "C")
    updateRef := fun _ _ => .response 422 none
    createPull := fun _ _ _ _ => .response 201 (some "U") }

def p3c : Payload := ⟨"fix", "msg", "title", "body", [("main.tf", "content")]⟩

/-- Oracle where branch creation answers a non-201 status. -/
def o3w : GitHubOracle :=
  { ghAllFail with
    refMain := .response 200 (some "M"),
    refBranch := fun _ => .response 404 none,
    createRef := fun _ _ => .response 422 none }

def p3w : Payload := ⟨"fx", "m", "t", "b", []⟩

/-- Oracle where every publish step succeeds. -/
def o7w : GitHubOracle :=
  { refMain := .response 200 (some "M")
    refBranch := fun _ => .response 404 none
    createRef := fun _ _ => .response 201 none
    createBlob := fun _ => .response 201 (some "B")
    getTree := fun _ => .response 200 (some "T")
    createTree := fun _ _ => .response 201 (some "N")
    createCommit := fun _ _ _ => .response 201 (some "C")
    updateRef := fun _ _ => .response 200 none
    createPull := fun _ _ _ _ => .response 201 (some "U") }

/-- Latest run concluded successfully. -/
def a6w : ActionsOracle :=
  ⟨.httpStatus 200 [⟨some "success", none⟩], fun _ => .transport⟩

/-- Latest run failed, but the log archive has no `0_terraform.txt` entry. -/
def a6b : ActionsOracle :=
  ⟨.httpStatus 200 [⟨some "failure", some "L"⟩],
   fun _ => .httpStatus 200 [("other.txt", "x")]⟩

/-- Latest run failed and its record carries no `logs_url`. -/
def a10w : ActionsOracle :=
  ⟨.httpStatus 200 [⟨some "failure", none⟩], fun _ => .transport⟩

def listing8 : List DirEntry :=
  [⟨"file", "a.tf", "u1"⟩, ⟨"file", "b.md", "u2"⟩, ⟨"dir", "c.tf", "u3"⟩]

def ct8 : String → String := fun u => if u == "u1" then "A" else "Z"

/-- Listing with one matching file, one wrong extension, one directory. -/
def f8w : FilesOracle := ⟨.httpStatus 200 listing8, fun u => .httpStatus 200 (ct8 u)⟩

/-- Listing containing only a non-matching-extension file. -/
def f8e : FilesOracle :=
  ⟨.httpStatus 200 [⟨"file", "r.md", "u"⟩], fun u => .httpStatus 200 (ct8 u)⟩

/-- A working listing oracle (used to exhibit the listing call's headers). -/
def f9c : FilesOracle := ⟨.httpStatus 200 [], fun _ => .transport⟩

/-! ### Helper lemmas -/

theorem foldl_append_filter_map {α β : Type} (p : α → Bool) (f : α → β)
    (l : List α) (acc : List β) :
    l.foldl (fun a x => if p x then a ++ [f x] else a) acc
      = acc ++ (l.filter p).map f := by
  induction l generalizing acc with
  | nil => simp
  | cons x xs ih =>
    by_cases h : p x <;> simp [List.filter_cons, h, ih, List.append_assoc]

theorem stripItems_map_str (fentries : List (String × String)) :
    stripItems (fentries.map (fun kv => (kv.1, PyVal.str kv.2)))
      = .ok (fentries.map (fun kv => (kv.1, pyStrip kv.2))) := by
  induction fentries with
  | nil => rfl
  | cons kv rest ih => simp [stripItems, ih, Except.map]

/-! ### C5 — collect-all-matches extraction -/

/-- C5 (counterexample): the claim asserts no trimming is applied to any
matching line, but line 77 appends `line.strip()`: on the one-line log
`"  error: x  "` the extractor returns the stripped line, not the line
itself. -/
theorem C5_counterexample :
    extract_error_with_context "  error: x  " = "error: x" ∧
    extract_error_with_context "  error: x  " ≠ "  error: x  " := by
  refine ⟨rfl, ?_⟩
  decide

/-- C5 (amended): for every log text, the extractor returns exactly the
lines containing `"error"` case-insensitively, in their original order,
joined by newlines, each line stripped of leading and trailing whitespace;
zero matching lines yield empty text and duplicates are kept. -/
theorem C5_theorem (log : String) :
    extract_error_with_context log =
      String.intercalate "\n"
        (((pySplitlines log).filter
            (fun l => containsSub "error" (pyLower l))).map pyStrip) := by
  unfold extract_error_with_context
  rw [foldl_append_filter_map]
  simp

/-! ### C1 — Response Parser validation -/

/-- C1 (counterexample): a response whose `files` key maps to an empty
object parses *successfully* into a payload with an empty file map — the
claimed fatal parse error for empty `files` does not exist in the code
(lines 181-182 simply iterate zero times). -/
theorem C1_counterexample :
    parse_fixed_code (.dict [("files", .dict [])]) =
      .ok ⟨none, none, none, none, []⟩ := rfl

/-- C1 (amended): parsing fails with an error when the `files` key is
absent (line 181 calls `.items()` on `None`), and when parsing succeeds on
a `files` object of strings, every per-file content value equals the
embedded string stripped of leading and trailing whitespace; but an empty
`files` object is accepted, not rejected. -/
theorem C1_theorem :
    (∀ entries : List (String × PyVal),
        pyGet entries "files" = none →
        parse_fixed_code (.dict entries) = .error .attributeError) ∧
    (∀ (entries : List (String × PyVal)) (fentries : List (String × String)),
        pyGet entries "files"
            = some (.dict (fentries.map (fun kv => (kv.1, PyVal.str kv.2)))) →
        parse_fixed_code (.dict entries) =
          .ok { branch_name := pyGet entries "branch_name",
                commit_message := pyGet entries "commit_message",
                pr_title := pyGet entries "pr_title",
                pr_body := pyGet entries "pr_body",
                files := fentries.map (fun kv => (kv.1, pyStrip kv.2)) }) := by
  constructor
  · intro entries h
    simp [parse_fixed_code, h]
  · intro entries fentries h
    simp [parse_fixed_code, h, stripItems_map_str, Except.map]

/-- C1 (witness): both conjuncts of `C1_theorem` at concrete inputs. -/
theorem C1_witness :
    parse_fixed_code (.dict [("branch_name", .str "b")]) = .error .attributeError ∧
    parse_fixed_code (.dict [("files", .dict [("a.tf", .str " y ")])]) =
      .ok { branch_name := none, commit_message := none, pr_title := none,
            pr_body := none, files := [("a.tf", "y")] } :=
  ⟨C1_theorem.1 [("branch_name", .str "b")] rfl,
   C1_theorem.2 [("files", .dict [("a.tf", .str " y ")])] [("a.tf", " y ")] rfl⟩

/-! ### C4 — entry-boundary totality -/

/-- C4 (code bug): on the empty event, line 296 raises `KeyError` before
`actionGroup` is ever assigned; the `except KeyError` block then reads the
unbound local `actionGroup` (line 378) and raises `UnboundLocalError`,
which propagates past the handler boundary — contradicting the documented
contract that a structured error envelope is always returned. -/
theorem C4_theorem :
    lambda_handler env4 [] = .error (.unboundLocalError "actionGroup") := rfl

/-! ### Publish-step lemmas -/

theorem blobLoop_ok (o : GitHubOracle) (bsha : String → String)
    (fs : List (String × String))
    (h : ∀ pc ∈ fs, o.createBlob (b64encode pc.2)
          = .response 201 (some (bsha (b64encode pc.2)))) :
    blobLoop o fs = (.ok (blobEntries bsha fs), blobReqs fs) := by
  induction fs with
  | nil => rfl
  | cons pc rest ih =>
    obtain ⟨p1, c1⟩ := pc
    have h1 := h (p1, c1) (by simp)
    have h2 : ∀ q ∈ rest, o.createBlob (b64encode q.2)
        = .response 201 (some (bsha (b64encode q.2))) :=
      fun q hq => h q (by simp [hq])
    simp [blobLoop, h1, ih h2, blobEntries, blobReqs, Except.map]

theorem blobLoop_fail (o : GitHubOracle) (bsha : String → String)
    (fs1 : List (String × String)) (pf cf : String) (fs2 : List (String × String))
    (h1 : ∀ pc ∈ fs1, o.createBlob (b64encode pc.2)
          = .response 201 (some (bsha (b64encode pc.2))))
    (h2 : (o.createBlob (b64encode cf)).sha? = none) :
    ∃ e, blobLoop o (fs1 ++ (pf, cf) :: fs2) =
      (.error e, blobReqs fs1 ++ [⟨.createBlob (b64encode cf), bearerNoTimeout⟩]) := by
  induction fs1 with
  | nil =>
    cases ho : o.createBlob (b64encode cf) with
    | transport => exact ⟨.transportError, by simp [blobLoop, ho, blobReqs]⟩
    | response st s =>
      cases s with
      | none => exact ⟨.keyError "sha", by simp [blobLoop, ho, blobReqs]⟩
      | some v =>
        rw [ho] at h2
        simp [Outcome.sha?] at h2
  | cons pc rest ih =>
    obtain ⟨p1, c1⟩ := pc
    have hh := h1 (p1, c1) (by simp)
    have hrest : ∀ q ∈ rest, o.createBlob (b64encode q.2)
        = .response 201 (some (bsha (b64encode q.2))) :=
      fun q hq => h1 q (by simp [hq])
    obtain ⟨e, he⟩ := ih hrest
    exact ⟨e, by simp [blobLoop, hh, he, blobReqs, Except.map]⟩

theorem create_pull_request_trace (o : GitHubOracle) (hd bs ti bo : String) :
    (create_pull_request o hd bs ti bo).2
      = [⟨.createPull ti bo hd bs, bearerNoTimeout⟩] := by
  unfold create_pull_request
  cases o.createPull ti bo hd bs with
  | transport => rfl
  | response st u => by_cases hst : st = 201 <;> simp [hst]

theorem publishRest_success (o : GitHubOracle) (p : Payload) (base_commit : String)
    (blobs : List TreeEntry) (t nt cs : String) (stT stCT stC stU : Nat)
    (xU uP : Option String)
    (hT : o.getTree base_commit = .response stT (some t))
    (hCT : o.createTree t blobs = .response stCT (some nt))
    (hC : o.createCommit p.commit_message nt [base_commit] = .response stC (some cs))
    (hU : o.updateRef p.branch_name cs = .response stU xU)
    (hP : o.createPull p.pr_title p.pr_body p.branch_name "main" = .response 201 uP) :
    publishRest o p base_commit blobs =
      (.ok p.branch_name,
       [⟨.getTree base_commit, bearerNoTimeout⟩,
        ⟨.createTree t blobs, bearerNoTimeout⟩,
        ⟨.createCommit p.commit_message nt [base_commit], bearerNoTimeout⟩,
        ⟨.updateRef p.branch_name cs, bearerNoTimeout⟩,
        ⟨.createPull p.pr_title p.pr_body p.branch_name "main", bearerNoTimeout⟩]) := by
  unfold publishRest create_pull_request
  simp [hT, hCT, hC, hU, hP, Except.map]

/-! ### C2 — branch-conflict abort before any mutation -/

/-- C2: when the main tip resolves and the ref-existence query for the
payload's branch answers 200, the publish aborts with the named
`ValueError` conflict, and the only requests issued are the two reads —
no branch/blob/tree/commit/ref-update/pull-request call is made. -/
theorem C2_theorem (o : GitHubOracle) (p : Payload) (st : Nat) (m : String)
    (x : Option String)
    (hMain : o.refMain = .response st (some m))
    (hBranch : o.refBranch p.branch_name = .response 200 x) :
    create_new_branch_pub o p =
      (.error (.valueError ("Branch " ++ p.branch_name ++ " already exists.")),
       [⟨.getRef "main", bearerNoTimeout⟩, ⟨.getRef p.branch_name, bearerNoTimeout⟩]) ∧
    (create_new_branch_pub o p).2.all (fun r => !isMutation r.call) = true := by
  have heq : create_new_branch_pub o p =
      (.error (.valueError ("Branch " ++ p.branch_name ++ " already exists.")),
       [⟨.getRef "main", bearerNoTimeout⟩, ⟨.getRef p.branch_name, bearerNoTimeout⟩]) := by
    unfold create_new_branch_pub
    rw [hMain, hBranch]
    simp
  exact ⟨heq, by rw [heq]; simp [isMutation]⟩

/-- C2 (witness): `C2_theorem` on a concrete oracle whose branch lookup
answers 200. -/
theorem C2_witness :
    create_new_branch_pub o2w p2w =
      (.error (.valueError ("Branch " ++ "dup" ++ " already exists.")),
       [⟨.getRef "main", bearerNoTimeout⟩, ⟨.getRef "dup", bearerNoTimeout⟩]) ∧
    (create_new_branch_pub o2w p2w).2.all (fun r => !isMutation r.call) = true :=
  C2_theorem o2w p2w 200 "M" none rfl rfl

/-! ### C3 — failure propagation through the publish sequence -/

/-- C3 (counterexample): with every step succeeding except the ref update —
which answers a non-success 422 — the pull-request call is still issued and
the publish even reports success, because lines 254-258 never inspect the
PATCH response. This refutes the claim that a failed ref-update step
prevents the pull-request creation call. -/
theorem C3_counterexample :
    o3c.updateRef "fix" "C" = .response 422 none ∧
    create_new_branch_pub o3c p3c =
      (.ok "fix",
       [⟨.getRef "main", bearerNoTimeout⟩,
        ⟨.getRef "fix", bearerNoTimeout⟩,
        ⟨.createRef "refs/heads/fix" "M", bearerNoTimeout⟩,
        ⟨.createBlob "Y29udGVudA==", bearerNoTimeout⟩,
        ⟨.getTree "M", bearerNoTimeout⟩,
        ⟨.createTree "T" [⟨"main.tf", "100644", "blob", "B"⟩], bearerNoTimeout⟩,
        ⟨.createCommit "msg" "N" ["M"], bearerNoTimeout⟩,
        ⟨.updateRef "fix" "C", bearerNoTimeout⟩,
        ⟨.createPull "title" "body" "fix" "main", bearerNoTimeout⟩]) := ⟨rfl, rfl⟩

/-- C3 (amended): every step failure aborts the remaining steps, except
that the ref-update response is never inspected. Concretely: (a)/(b) a
transport failure or non-201 response of branch creation stops before any
blob; (c) a failing blob call (transport, or body without `"sha"`) stops at
that blob; (d)-(f) a failing base-tree lookup, tree creation or commit
creation stops at that call; (g) a transport failure of the ref update
prevents the pull-request call; but (h) a ref-update *response* of any
status — success or not — is ignored and the pull-request call is still
issued, the publish reporting success. -/
theorem C3_theorem :
    (∀ (o : GitHubOracle) (p : Payload) (stM stB : Nat) (m : String) (xB : Option String),
      o.refMain = .response stM (some m) →
      o.refBranch p.branch_name = .response stB xB → stB ≠ 200 →
      o.createRef ("refs/heads/" ++ p.branch_name) m = .transport →
      create_new_branch_pub o p = (.error .transportError, prefixReqs p m)) ∧
    (∀ (o : GitHubOracle) (p : Payload) (stM stB stCr : Nat) (m : String)
       (xB xCr : Option String),
      o.refMain = .response stM (some m) →
      o.refBranch p.branch_name = .response stB xB → stB ≠ 200 →
      o.createRef ("refs/heads/" ++ p.branch_name) m = .response stCr xCr → stCr ≠ 201 →
      create_new_branch_pub o p =
        (.error (.exception ("Failed to create branch " ++ p.branch_name ++ ".")),
         prefixReqs p m)) ∧
    (∀ (o : GitHubOracle) (p : Payload) (stM stB : Nat) (m : String) (xB xCr : Option String)
       (bsha : String → String) (fs1 : List (String × String)) (pf cf : String)
       (fs2 : List (String × String)),
      o.refMain = .response stM (some m) →
      o.refBranch p.branch_name = .response stB xB → stB ≠ 200 →
      o.createRef ("refs/heads/" ++ p.branch_name) m = .response 201 xCr →
      p.files = fs1 ++ (pf, cf) :: fs2 →
      (∀ pc ∈ fs1, o.createBlob (b64encode pc.2)
          = .response 201 (some (bsha (b64encode pc.2)))) →
      (o.createBlob (b64encode cf)).sha? = none →
      ∃ e, create_new_branch_pub o p =
        (.error e, prefixReqs p m ++ blobReqs fs1 ++
          [⟨.createBlob (b64encode cf), bearerNoTimeout⟩])) ∧
    (∀ (o : GitHubOracle) (p : Payload) (stM stB : Nat) (m : String) (xB xCr : Option String)
       (bsha : String → String),
      o.refMain = .response stM (some m) →
      o.refBranch p.branch_name = .response stB xB → stB ≠ 200 →
      o.createRef ("refs/heads/" ++ p.branch_name) m = .response 201 xCr →
      (∀ pc ∈ p.files, o.createBlob (b64encode pc.2)
          = .response 201 (some (bsha (b64encode pc.2)))) →
      (o.getTree m).sha? = none →
      ∃ e, create_new_branch_pub o p =
        (.error e, prefixReqs p m ++ blobReqs p.files ++
          [⟨.getTree m, bearerNoTimeout⟩])) ∧
    (∀ (o : GitHubOracle) (p : Payload) (stM stB stT : Nat) (m t : String)
       (xB xCr : Option String) (bsha : String → String),
      o.refMain = .response stM (some m) →
      o.refBranch p.branch_name = .response stB xB → stB ≠ 200 →
      o.createRef ("refs/heads/" ++ p.branch_name) m = .response 201 xCr →
      (∀ pc ∈ p.files, o.createBlob (b64encode pc.2)
          = .response 201 (some (bsha (b64encode pc.2)))) →
      o.getTree m = .response stT (some t) →
      (o.createTree t (blobEntries bsha p.files)).sha? = none →
      ∃ e, create_new_branch_pub o p =
        (.error e, prefixReqs p m ++ blobReqs p.files ++
          [⟨.getTree m, bearerNoTimeout⟩,
           ⟨.createTree t (blobEntries bsha p.files), bearerNoTimeout⟩])) ∧
    (∀ (o : GitHubOracle) (p : Payload) (stM stB stT stCT : Nat) (m t nt : String)
       (xB xCr : Option String) (bsha : String → String),
      o.refMain = .response stM (some m) →
      o.refBranch p.branch_name = .response stB xB → stB ≠ 200 →
      o.createRef ("refs/heads/" ++ p.branch_name) m = .response 201 xCr →
      (∀ pc ∈ p.files, o.createBlob (b64encode pc.2)
          = .response 201 (some (bsha (b64encode pc.2)))) →
      o.getTree m = .response stT (some t) →
      o.createTree t (blobEntries bsha p.files) = .response stCT (some nt) →
      (o.createCommit p.commit_message nt [m]).sha? = none →
      ∃ e, create_new_branch_pub o p =
        (.error e, prefixReqs p m ++ blobReqs p.files ++
          [⟨.getTree m, bearerNoTimeout⟩,
           ⟨.createTree t (blobEntries bsha p.files), bearerNoTimeout⟩,
           ⟨.createCommit p.commit_message nt [m], bearerNoTimeout⟩])) ∧
    (∀ (o : GitHubOracle) (p : Payload) (stM stB stT stCT stC : Nat) (m t nt cs : String)
       (xB xCr : Option String) (bsha : String → String),
      o.refMain = .response stM (some m) →
      o.refBranch p.branch_name = .response stB xB → stB ≠ 200 →
      o.createRef ("refs/heads/" ++ p.branch_name) m = .response 201 xCr →
      (∀ pc ∈ p.files, o.createBlob (b64encode pc.2)
          = .response 201 (some (bsha (b64encode pc.2)))) →
      o.getTree m = .response stT (some t) →
      o.createTree t (blobEntries bsha p.files) = .response stCT (some nt) →
      o.createCommit p.commit_message nt [m] = .response stC (some cs) →
      o.updateRef p.branch_name cs = .transport →
      create_new_branch_pub o p =
        (.error .transportError, prefixReqs p m ++ blobReqs p.files ++
          [⟨.getTree m, bearerNoTimeout⟩,
           ⟨.createTree t (blobEntries bsha p.files), bearerNoTimeout⟩,
           ⟨.createCommit p.commit_message nt [m], bearerNoTimeout⟩,
           ⟨.updateRef p.branch_name cs, bearerNoTimeout⟩])) ∧
    (∀ (o : GitHubOracle) (p : Payload) (stM stB stT stCT stC stU : Nat)
       (m t nt cs : String) (xB xCr xU uP : Option String) (bsha : String → String),
      o.refMain = .response stM (some m) →
      o.refBranch p.branch_name = .response stB xB → stB ≠ 200 →
      o.createRef ("refs/heads/" ++ p.branch_name) m = .response 201 xCr →
      (∀ pc ∈ p.files, o.createBlob (b64encode pc.2)
          = .response 201 (some (bsha (b64encode pc.2)))) →
      o.getTree m = .response stT (some t) →
      o.createTree t (blobEntries bsha p.files) = .response stCT (some nt) →
      o.createCommit p.commit_message nt [m] = .response stC (some cs) →
      o.updateRef p.branch_name cs = .response stU xU →
      o.createPull p.pr_title p.pr_body p.branch_name "main" = .response 201 uP →
      create_new_branch_pub o p =
        (.ok p.branch_name, prefixReqs p m ++ blobReqs p.files ++
          [⟨.getTree m, bearerNoTimeout⟩,
           ⟨.createTree t (blobEntries bsha p.files), bearerNoTimeout⟩,
           ⟨.createCommit p.commit_message nt [m], bearerNoTimeout⟩,
           ⟨.updateRef p.branch_name cs, bearerNoTimeout⟩,
           ⟨.createPull p.pr_title p.pr_body p.branch_name "main", bearerNoTimeout⟩])) := by
  refine ⟨?_, ?_, ?_, ?_, ?_, ?_, ?_, ?_⟩
  · intro o p stM stB m xB hM hB hne hCr
    unfold create_new_branch_pub
    simp [hM, hB, hne, hCr, prefixReqs]
  · intro o p stM stB stCr m xB xCr hM hB hne hCr h201
    unfold create_new_branch_pub
    simp [hM, hB, hne, hCr, h201, prefixReqs]
  · intro o p stM stB m xB xCr bsha fs1 pf cf fs2 hM hB hne hCr hfiles hok hfail
    obtain ⟨e, he⟩ := blobLoop_fail o bsha fs1 pf cf fs2 hok hfail
    refine ⟨e, ?_⟩
    unfold create_new_branch_pub
    simp [hM, hB, hne, hCr, hfiles, he, prefixReqs]
  · intro o p stM stB m xB xCr bsha hM hB hne hCr hok hT
    have hbl := blobLoop_ok o bsha p.files hok
    cases ho : o.getTree m with
    | transport =>
      refine ⟨.transportError, ?_⟩
      unfold create_new_branch_pub publishRest
      simp [hM, hB, hne, hCr, hbl, ho, prefixReqs]
    | response stT sh =>
      cases sh with
      | some t =>
        rw [ho] at hT
        simp [Outcome.sha?] at hT
      | none =>
        refine ⟨.keyError "sha", ?_⟩
        unfold create_new_branch_pub publishRest
        simp [hM, hB, hne, hCr, hbl, ho, prefixReqs]
  · intro o p stM stB stT m t xB xCr bsha hM hB hne hCr hok hT hCT
    have hbl := blobLoop_ok o bsha p.files hok
    cases ho : o.createTree t (blobEntries bsha p.files) with
    | transport =>
      refine ⟨.transportError, ?_⟩
      unfold create_new_branch_pub publishRest
      simp [hM, hB, hne, hCr, hbl, hT, ho, prefixReqs]
    | response stCT sh =>
      cases sh with
      | some nt =>
        rw [ho] at hCT
        simp [Outcome.sha?] at hCT
      | none =>
        refine ⟨.keyError "sha", ?_⟩
        unfold create_new_branch_pub publishRest
        simp [hM, hB, hne, hCr, hbl, hT, ho, prefixReqs]
  · intro o p stM stB stT stCT m t nt xB xCr bsha hM hB hne hCr hok hT hCT hC
    have hbl := blobLoop_ok o bsha p.files hok
    cases ho : o.createCommit p.commit_message nt [m] with
    | transport =>
      refine ⟨.transportError, ?_⟩
      unfold create_new_branch_pub publishRest
      simp [hM, hB, hne, hCr, hbl, hT, hCT, ho, prefixReqs]
    | response stC sh =>
      cases sh with
      | some cs =>
        rw [ho] at hC
        simp [Outcome.sha?] at hC
      | none =>
        refine ⟨.keyError "sha", ?_⟩
        unfold create_new_branch_pub publishRest
        simp [hM, hB, hne, hCr, hbl, hT, hCT, ho, prefixReqs]
  · intro o p stM stB stT stCT stC m t nt cs xB xCr bsha hM hB hne hCr hok hT hCT hC hU
    have hbl := blobLoop_ok o bsha p.files hok
    unfold create_new_branch_pub publishRest
    simp [hM, hB, hne, hCr, hbl, hT, hCT, hC, hU, prefixReqs]
  · intro o p stM stB stT stCT stC stU m t nt cs xB xCr xU uP bsha
      hM hB hne hCr hok hT hCT hC hU hP
    have hbl := blobLoop_ok o bsha p.files hok
    have hrest := publishRest_success o p m (blobEntries bsha p.files)
      t nt cs stT stCT stC stU xU uP hT hCT hC hU hP
    unfold create_new_branch_pub
    simp [hM, hB, hne, hCr, hbl, hrest, prefixReqs]

/-- C3 (witness): conjunct (b) of `C3_theorem` — a 422 branch-creation
response — at a concrete oracle. -/
theorem C3_witness :
    create_new_branch_pub o3w p3w =
      (.error (.exception ("Failed to create branch " ++ "fx" ++ ".")),
       prefixReqs p3w "M") :=
  C3_theorem.2.1 o3w p3w 200 404 422 "M" none none rfl rfl
    (by decide) rfl (by decide)

theorem raiseForStatus_false {st : Nat} (h : st < 400) : raiseForStatus st = false := by
  unfold raiseForStatus
  have : ¬ 400 ≤ st := by omega
  simp [this]

/-! ### C6 — discovery-mode sentinels -/

/-- C6: (first part) when the latest run's conclusion is anything other
than `"failure"`, discovery returns the non-error sentinel
`"Latest workflow run did not fail."`; (second part) when the run failed
but the unpacked log archive has no `0_terraform.txt` entry, discovery
returns the sentinel `"Terraform log file not found in workflow
artifacts."` — in both cases a successful value, not a raised error. -/
theorem C6_theorem :
    (∀ (o : ActionsOracle) (bn : String) (st : Nat) (latest : Run) (rest : List Run),
      o.runs = .httpStatus st (latest :: rest) → st < 400 →
      latest.conclusion ≠ some "failure" →
      (fetch_github_actions_details o bn).1 = .ok "Latest workflow run did not fail.") ∧
    (∀ (o : ActionsOracle) (bn : String) (st st2 : Nat) (latest : Run) (rest : List Run)
       (u : String) (zs : List (String × String)),
      o.runs = .httpStatus st (latest :: rest) → st < 400 →
      latest.conclusion = some "failure" → latest.logs_url = some u → u ≠ "" →
      o.logs u = .httpStatus st2 zs → st2 < 400 →
      (∀ e ∈ zs, e.1 ≠ "0_terraform.txt") →
      (fetch_github_actions_details o bn).1
        = .ok "Terraform log file not found in workflow artifacts.") := by
  constructor
  · intro o bn st latest rest hruns hst hconc
    unfold fetch_github_actions_details
    simp [hruns, raiseForStatus_false hst, hconc]
  · intro o bn st st2 latest rest u zs hruns hst hconc hurl hne hlogs hst2 hzs
    have hfind : zs.find? (fun e => e.1 == "0_terraform.txt") = none :=
      List.find?_eq_none.mpr (fun x hx => by simp [hzs x hx])
    have hemp : u.isEmpty = false := by
      cases hc : u.isEmpty
      · rfl
      · exact absurd ((String.isEmpty_iff u).mp hc) hne
    unfold fetch_github_actions_details
    simp [hruns, raiseForStatus_false hst, hconc, hurl, hemp, hlogs,
          raiseForStatus_false hst2, hfind]

/-- C6 (witness): both conjuncts of `C6_theorem` at concrete oracles. -/
theorem C6_witness :
    (fetch_github_actions_details a6w "main").1 = .ok "Latest workflow run did not fail." ∧
    (fetch_github_actions_details a6b "main").1
      = .ok "Terraform log file not found in workflow artifacts." :=
  ⟨C6_theorem.1 a6w "main" 200 ⟨some "success", none⟩ [] rfl (by decide) (by decide),
   C6_theorem.2 a6b "main" 200 200 ⟨some "failure", some "L"⟩ [] "L" [("other.txt", "x")]
     rfl (by decide) rfl rfl (by decide) rfl (by decide) (by decide)⟩

/-! ### C10 — failed run without a logs locator -/

/-- C10: a latest run that concluded `"failure"` but whose record carries
no `logs_url` falls through the `if logs_url:` guard of line 41 and reaches
line 64, returning the very same `"Latest workflow run did not fail."`
sentinel as a non-failed run — the two cases are indistinguishable at the
function's output. -/
theorem C10_theorem (o : ActionsOracle) (bn : String) (st : Nat) (latest : Run)
    (rest : List Run)
    (hruns : o.runs = .httpStatus st (latest :: rest)) (hst : st < 400)
    (hconc : latest.conclusion = some "failure") (hurl : latest.logs_url = none) :
    (fetch_github_actions_details o bn).1 = .ok "Latest workflow run did not fail." := by
  unfold fetch_github_actions_details
  simp [hruns, raiseForStatus_false hst, hconc, hurl]

/-- C10 (witness): `C10_theorem` on a concrete oracle whose latest run
failed with no logs locator. -/
theorem C10_witness :
    (fetch_github_actions_details a10w "main").1
      = .ok "Latest workflow run did not fail." :=
  C10_theorem a10w "main" 200 ⟨some "failure", none⟩ [] rfl (by decide) rfl rfl

/-! ### C7 — git-object construction -/

/-- C7: for a validated payload (the parse of a well-formed document),
every blob call carries the base64 encoding of the file's stripped content;
each tree entry records the file's path with fixed mode `"100644"` and type
`"blob"`; the new tree is created with the base commit's tree sha as its
`base_tree`; and the new commit is created with the payload's commit
message, the new tree, and exactly `[base tip of main]` as parents. -/
theorem C7_theorem (o : GitHubOracle) (bn cm pt pb : String)
    (fentries : List (String × String)) (m t nt cs : String)
    (stM stB stT stCT stC stU : Nat) (xB xCr xU uP : Option String)
    (bsha : String → String)
    (hM : o.refMain = .response stM (some m))
    (hB : o.refBranch bn = .response stB xB) (hne : stB ≠ 200)
    (hCr : o.createRef ("refs/heads/" ++ bn) m = .response 201 xCr)
    (hBlob : ∀ c, o.createBlob c = .response 201 (some (bsha c)))
    (hT : o.getTree m = .response stT (some t))
    (hCT : o.createTree t (blobEntries bsha (strippedFiles fentries))
             = .response stCT (some nt))
    (hC : o.createCommit cm nt [m] = .response stC (some cs))
    (hU : o.updateRef bn cs = .response stU xU)
    (hP : o.createPull pt pb bn "main" = .response 201 uP) :
    parse_fixed_code (payloadJson bn cm pt pb fentries) =
      .ok ⟨some (.str bn), some (.str cm), some (.str pt), some (.str pb),
           strippedFiles fentries⟩ ∧
    create_new_branch_pub o
        (toPayload ⟨some (.str bn), some (.str cm), some (.str pt), some (.str pb),
                    strippedFiles fentries⟩) =
      (.ok bn,
       [⟨.getRef "main", bearerNoTimeout⟩,
        ⟨.getRef bn, bearerNoTimeout⟩,
        ⟨.createRef ("refs/heads/" ++ bn) m, bearerNoTimeout⟩] ++
         blobReqs (strippedFiles fentries) ++
         [⟨.getTree m, bearerNoTimeout⟩,
          ⟨.createTree t (blobEntries bsha (strippedFiles fentries)), bearerNoTimeout⟩,
          ⟨.createCommit cm nt [m], bearerNoTimeout⟩,
          ⟨.updateRef bn cs, bearerNoTimeout⟩,
          ⟨.createPull pt pb bn "main", bearerNoTimeout⟩]) := by
  constructor
  · unfold parse_fixed_code payloadJson
    simp [pyGet, stripItems_map_str, strippedFiles, Except.map]
  · have hbl := blobLoop_ok o bsha (strippedFiles fentries)
      (fun pc _ => hBlob (b64encode pc.2))
    have hrest := publishRest_success o
      ⟨bn, cm, pt, pb, strippedFiles fentries⟩ m
      (blobEntries bsha (strippedFiles fentries)) t nt cs stT stCT stC stU xU uP
      hT hCT hC hU hP
    unfold create_new_branch_pub
    simp [toPayload, fstring, pyRender, hM, hB, hne, hCr, hbl, hrest]

/-- C7 (witness): `C7_theorem` on a concrete all-success oracle and a
one-file document whose content carries surrounding whitespace. -/
theorem C7_witness :
    parse_fixed_code (payloadJson "b" "cmsg" "pt" "pd" [("f.tf", " x ")]) =
      .ok ⟨some (.str "b"), some (.str "cmsg"), some (.str "pt"), some (.str "pd"),
           [("f.tf", "x")]⟩ ∧
    create_new_branch_pub o7w
        (toPayload ⟨some (.str "b"), some (.str "cmsg"), some (.str "pt"),
                    some (.str "pd"), strippedFiles [("f.tf", " x ")]⟩) =
      (.ok "b",
       [⟨.getRef "main", bearerNoTimeout⟩,
        ⟨.getRef "b", bearerNoTimeout⟩,
        ⟨.createRef "refs/heads/b" "M", bearerNoTimeout⟩,
        ⟨.createBlob "eA==", bearerNoTimeout⟩,
        ⟨.getTree "M", bearerNoTimeout⟩,
        ⟨.createTree "T" [⟨"f.tf", "100644", "blob", "B"⟩], bearerNoTimeout⟩,
        ⟨.createCommit "cmsg" "N" ["M"], bearerNoTimeout⟩,
        ⟨.updateRef "b" "C", bearerNoTimeout⟩,
        ⟨.createPull "pt" "pd" "b" "main", bearerNoTimeout⟩]) :=
  C7_theorem o7w "b" "cmsg" "pt" "pd" [("f.tf", " x ")] "M" "T" "N" "C"
    200 404 200 201 201 200 none none none (some "U") (fun _ => "B")
    rfl rfl (by decide) rfl (fun _ => rfl) rfl rfl rfl rfl rfl

/-! ### C8 — Source Fetcher filtering and serialization -/

theorem fetchLoop_ok (o : FilesOracle) (ct : String → String)
    (hc : ∀ url, o.fileContent url = .httpStatus 200 (ct url))
    (l : List DirEntry) :
    fetchLoop o l =
      (.ok (serializeFiles ct l),
       (l.filter matchesEntry).map (fun e => ⟨.getRaw e.download_url, noAuthTimeout60⟩)) := by
  induction l with
  | nil => rfl
  | cons item rest ih =>
    by_cases hm : matchesEntry item
    · simp [fetchLoop, hm, hc item.download_url,
        raiseForStatus_false (show (200 : Nat) < 400 by decide),
        ih, serializeFiles, List.filter_cons, Except.map]
    · simp [fetchLoop, hm, ih, serializeFiles, List.filter_cons]

/-- C8: when the listing succeeds and every content fetch succeeds, the
fetcher returns exactly the `File: <name>` + content + blank-line blocks
of the regular-file entries with a recognised extension, in listing order,
and the content requests issued are exactly those entries' download urls;
a listing with only non-matching entries yields the empty text as a
success. -/
theorem C8_theorem (o : FilesOracle) (bn : String) (st : Nat)
    (entries : List DirEntry) (ct : String → String)
    (h1 : o.listing = .httpStatus st entries) (h2 : st < 400)
    (hc : ∀ url, o.fileContent url = .httpStatus 200 (ct url)) :
    fetch_files_from_github o bn =
      (.ok (serializeFiles ct entries),
       ⟨.listDir bn, noAuthTimeout60⟩ ::
         (entries.filter matchesEntry).map
           (fun e => ⟨.getRaw e.download_url, noAuthTimeout60⟩)) := by
  unfold fetch_files_from_github
  simp [h1, raiseForStatus_false h2, fetchLoop_ok o ct hc entries]

/-- C8 (witness): `C8_theorem` on a listing with one matching file, one
wrong-extension file and one directory entry, and on a listing containing
only a non-matching file (empty result, success). -/
theorem C8_witness :
    fetch_files_from_github f8w "main" =
      (.ok "File: a.tf\nA\n\n",
       [⟨.listDir "main", noAuthTimeout60⟩, ⟨.getRaw "u1", noAuthTimeout60⟩]) ∧
    fetch_files_from_github f8e "main" =
      (.ok "", [⟨.listDir "main", noAuthTimeout60⟩]) :=
  ⟨C8_theorem f8w "main" 200 listing8 ct8 rfl (by decide) (fun _ => rfl),
   C8_theorem f8e "main" 200 [⟨"file", "r.md", "u"⟩] ct8 rfl (by decide) (fun _ => rfl)⟩

/-! ### C9 — headers and timeouts of outbound calls -/

theorem blobLoop_meta (o : GitHubOracle) (fs : List (String × String)) :
    (blobLoop o fs).2.all (fun r => r.meta == bearerNoTimeout) = true := by
  induction fs with
  | nil => rfl
  | cons pc rest ih =>
    obtain ⟨p1, c1⟩ := pc
    unfold blobLoop
    dsimp only
    cases o.createBlob (b64encode c1) with
    | transport => rfl
    | response st s =>
      cases s with
      | none => rfl
      | some v =>
        cases hb : blobLoop o rest with
        | mk res tr =>
          rw [hb] at ih
          simp_all

theorem publishRest_meta (o : GitHubOracle) (p : Payload) (m : String)
    (blobs : List TreeEntry) :
    (publishRest o p m blobs).2.all (fun r => r.meta == bearerNoTimeout) = true := by
  have hpr := create_pull_request_trace o p.branch_name "main" p.pr_title p.pr_body
  unfold publishRest
  cases hT : o.getTree m with
  | transport => simp
  | response stT sh =>
    cases sh with
    | none => simp
    | some t =>
      cases hCT : o.createTree t blobs with
      | transport => simp [hCT]
      | response stCT sh2 =>
        cases sh2 with
        | none => simp [hCT]
        | some nt =>
          cases hC : o.createCommit p.commit_message nt [m] with
          | transport => simp [hCT, hC]
          | response stC sh3 =>
            cases sh3 with
            | none => simp [hCT, hC]
            | some cs =>
              cases hU : o.updateRef p.branch_name cs with
              | transport => simp [hCT, hC, hU]
              | response stU xU =>
                simp [hCT, hC, hU, hpr, List.all_append]

theorem pub_meta (o : GitHubOracle) (p : Payload) :
    (create_new_branch_pub o p).2.all (fun r => r.meta == bearerNoTimeout) = true := by
  unfold create_new_branch_pub
  cases hM : o.refMain with
  | transport => simp
  | response stM sh =>
    cases sh with
    | none => simp
    | some m =>
      cases hB : o.refBranch p.branch_name with
      | transport => simp [hB]
      | response stB xB =>
        by_cases h200 : stB = 200
        · simp [hB, h200]
        · cases hCr : o.createRef ("refs/heads/" ++ p.branch_name) m with
          | transport => simp [hB, h200, hCr]
          | response st2 x2 =>
            by_cases h201 : st2 = 201
            · have hbm := blobLoop_meta o p.files
              cases hb : blobLoop o p.files with
              | mk bres btr =>
                rw [hb] at hbm
                cases bres with
                | error e => simp_all [List.all_append]
                | ok blobs =>
                  have hrm := publishRest_meta o p m blobs
                  cases hr : publishRest o p m blobs with
                  | mk rres rtr =>
                    rw [hr] at hrm
                    simp_all [List.all_append]
            · simp [hB, h200, hCr, h201]

theorem fetchLoop_meta (o : FilesOracle) (l : List DirEntry) :
    (fetchLoop o l).2.all (fun r => r.meta == noAuthTimeout60) = true := by
  induction l with
  | nil => rfl
  | cons item rest ih =>
    unfold fetchLoop
    by_cases hm : matchesEntry item
    · cases hf : o.fileContent item.download_url with
      | transport => simp [hm, hf]
      | httpStatus st text =>
        by_cases hs : raiseForStatus st
        · simp [hm, hf, hs]
        · cases hr : fetchLoop o rest with
          | mk res tr =>
            rw [hr] at ih
            simp_all
    · simp [hm, ih]

theorem fetch_files_meta (o : FilesOracle) (bn : String) :
    (fetch_files_from_github o bn).2.all (fun r => r.meta == noAuthTimeout60) = true := by
  unfold fetch_files_from_github
  cases hl : o.listing with
  | transport => simp
  | httpStatus st entries =>
    by_cases hs : raiseForStatus st
    · simp [hs]
    · have hfm := fetchLoop_meta o entries
      cases hr : fetchLoop o entries with
      | mk res tr =>
        rw [hr] at hfm
        simp_all

theorem details_meta (o : ActionsOracle) (bn : String) :
    (fetch_github_actions_details o bn).2.all (fun r => r.meta == bearerTimeout60) = true := by
  unfold fetch_github_actions_details
  cases hruns : o.runs with
  | transport => simp
  | httpStatus st runs =>
    by_cases hs : raiseForStatus st
    · simp [hs]
    · cases runs with
      | nil => simp [hs]
      | cons latest rest =>
        by_cases hc : latest.conclusion = some "failure"
        · cases hu : latest.logs_url with
          | none => simp [hs, hc, hu]
          | some u =>
            by_cases he : u.isEmpty = true
            · simp [hs, hc, hu, he]
            · cases hlog : o.logs u with
              | transport => simp [hs, hc, hu, he, hlog]
              | httpStatus st2 zs =>
                by_cases hs2 : raiseForStatus st2
                · simp [hs, hc, hu, he, hlog, hs2]
                · cases hfind : zs.find? (fun e => e.1 == "0_terraform.txt") with
                  | none => simp [hs, hc, hu, he, hlog, hs2, hfind]
                  | some entry => simp [hs, hc, hu, he, hlog, hs2, hfind]
        · simp [hs, hc]

/-- C9 (counterexample): the very first publish request (the main-tip
lookup of line 193) carries a bearer header but *no* timeout, and the
directory-listing request of line 87 carries a 60-unit timeout but *no*
credential (empty headers dict) — so not every outbound call carries both a
bearer credential and a 60-unit timeout, refuting the claim. -/
theorem C9_counterexample :
    (create_new_branch_pub o3c p3c).2.head? = some ⟨.getRef "main", ⟨true, none⟩⟩ ∧
    (fetch_files_from_github f9c "b").2.head? = some ⟨.listDir "b", ⟨false, some 60⟩⟩ ∧
    (⟨true, none⟩ : RequestMeta) ≠ ⟨true, some 60⟩ ∧
    (⟨false, some 60⟩ : RequestMeta) ≠ ⟨true, some 60⟩ :=
  ⟨rfl, rfl, by decide, by decide⟩

/-- C9 (amended): every request of the publish sequence (including the
pull-request call) carries a bearer credential but no timeout; every
request of the source fetcher (listing and raw content) carries a 60-unit
timeout but no credential; and every request of run discovery and log
retrieval carries both a bearer credential and a 60-unit timeout. -/
theorem C9_theorem (o : GitHubOracle) (p : Payload) (fo : FilesOracle)
    (ao : ActionsOracle) (bn bn2 : String) :
    (create_new_branch_pub o p).2.all (fun r => r.meta == bearerNoTimeout) = true ∧
    (fetch_files_from_github fo bn).2.all (fun r => r.meta == noAuthTimeout60) = true ∧
    (fetch_github_actions_details ao bn2).2.all (fun r => r.meta == bearerTimeout60) = true :=
  ⟨pub_meta o p, fetch_files_meta fo bn, details_meta ao bn2⟩

end Troubleshoot
